import Mathlib

/-!
Verification model of the FormHub Submission Risk Decision Engine.

The repository ships only its test suites; the engine itself (detectors,
decision orchestration, request validation) is described by the
specification that was written from those tests.  Every definition below
whose doc comment starts with "Modelled from the spec:" is a shallow
embedding of a component that is absent from the source tree, built
faithfully from the specification's words (component contracts in §4,
engine algorithm in §4.7, external interfaces in §6, error taxonomy in §7).

Scores live in [0,1].  Internally every detector computes an integer
number of thousandths (0 .. 1000); the rational score exposed in the
evidence trail is `mkRat k 1000`.  This keeps the whole pipeline
executable and kernel-reducible while agreeing exactly with the
real-valued contract of the spec.
-/

namespace FormHub

/-- Clamp an integer thousandths-score into the interval [0, 1000]. -/
def clampK (k : Int) : Int := min 1000 (max 0 k)

/-- The rational score in [0,1] denoted by an integer thousandths-score. -/
def scoreOfK (k : Int) : ℚ := mkRat k 1000

/-- Does `needle` occur as a prefix of `hay`? -/
def listStartsWith : List Char → List Char → Bool
  | [], _ => true
  | _ :: _, [] => false
  | a :: as, b :: bs => a == b && listStartsWith as bs

/-- Does `needle` occur as a contiguous subsequence of `hay`? -/
def containsSeq (needle : List Char) : List Char → Bool
  | [] => needle.isEmpty
  | b :: bs => listStartsWith needle (b :: bs) || containsSeq needle bs

/-- Number of (possibly overlapping) occurrences of `needle` in `hay`. -/
def countSeq (needle : List Char) : List Char → Nat
  | [] => 0
  | b :: bs => (if listStartsWith needle (b :: bs) then 1 else 0) + countSeq needle bs

/-- Lower-cased character stream of a text field. -/
def lowerChars (msg : String) : List Char := msg.toList.map Char.toLower

/-! ## Data model (spec §3) -/

/-- Modelled from the spec: client-reported behavioral telemetry sample
(§4.5).  Times are in milliseconds, speeds in characters per minute. -/
structure Telemetry where
  typingTimeMs : Nat
  typingSpeed : Nat
  mouseMovements : Nat
  mouseDistance : Nat
  scrollEvents : Nat
  clickEvents : Nat
  copyPasteEvents : Nat
  typingRhythm : List Int
  timeOnPageMs : Nat
  interactionDelayMs : Nat
deriving DecidableEq

/-- Modelled from the spec: the immutable Submission input (§3). -/
structure Submission where
  formKey : String
  sourceIP : String
  name : String
  email : String
  message : String
  honeypotValues : List (String × String)
  behavioralTelemetry : Option Telemetry
  timestamp : Nat
deriving DecidableEq

/-- Modelled from the spec: outcome of a RiskDecision (§3). -/
inductive Outcome
  | Accept
  | Quarantine
  | Reject
deriving DecidableEq

/-- Modelled from the spec: the output of one detector (§3). -/
structure SignalResult where
  detectorName : String
  score : ℚ
  triggeredHardRule : Bool
  reason : String
deriving DecidableEq

/-- Modelled from the spec: the aggregate RiskDecision (§3). -/
structure RiskDecision where
  outcome : Outcome
  combinedScore : ℚ
  signals : List SignalResult
  decidedAt : Nat
deriving DecidableEq

/-! ## Honeypot Detector (spec §4.1) -/

/-- Modelled from the spec: the Honeypot Detector (§4.1).  Returns a
hard-rule trip with score 1.0 if ANY decoy field is non-empty, otherwise
score 0.0, not triggered.  Pure, cannot fail. -/
def honeypotDetector (honeypotValues : List (String × String)) : SignalResult :=
  if honeypotValues.any (fun p => p.2 != "") then
    { detectorName := "honeypot", score := 1, triggeredHardRule := true
      reason := "honeypot field filled" }
  else
    { detectorName := "honeypot", score := 0, triggeredHardRule := false
      reason := "honeypot clean" }

/-! ## Rate Limiter (spec §4.2) -/

/-- Modelled from the spec: one mutable rate-limit window (§3). -/
structure RateLimitWindow where
  count : Nat
  windowStart : Nat
deriving DecidableEq

/-- Modelled from the spec: rate-limiter configuration (threshold of N
requests per window of `windowDuration` time units, §4.2). -/
structure RateLimiterConfig where
  threshold : Nat
  windowDuration : Nat
deriving DecidableEq

/-- Modelled from the spec: the Rate Limiter's store of windows keyed by
limit key (§3, §4.2). -/
structure RateLimiterState where
  windows : List (String × RateLimitWindow)
deriving DecidableEq

/-- Modelled from the spec: `check(limitKey, now)` of the Rate Limiter
(§4.2).  Fixed-window counter: the counter is reset exactly once at a
window boundary; within a window the count is monotonically
non-decreasing and the request is allowed while the count stays within
the threshold. -/
def RateLimiterState.check (cfg : RateLimiterConfig) (st : RateLimiterState)
    (key : String) (now : Nat) : Bool × RateLimiterState :=
  match st.windows.lookup key with
  | none =>
      (decide (1 ≤ cfg.threshold),
       ⟨(key, ⟨1, now⟩) :: st.windows⟩)
  | some w =>
      if w.windowStart + cfg.windowDuration ≤ now then
        (decide (1 ≤ cfg.threshold),
         ⟨(key, ⟨1, now⟩) :: st.windows.filter (fun p => p.1 != key)⟩)
      else
        (decide (w.count + 1 ≤ cfg.threshold),
         ⟨(key, ⟨w.count + 1, w.windowStart⟩) :: st.windows.filter (fun p => p.1 != key)⟩)

/-! ## IP Reputation Store (spec §4.3) -/

/-- Modelled from the spec: a per-IP reputation entry (§3).  `score` is a
decaying trust metric: violations push it down (more suspicious). -/
structure IPReputationEntry where
  score : ℚ
  violationCount : Nat
  lastSeenAt : Nat
  expiresAt : Nat
deriving DecidableEq

/-- Modelled from the spec: reputation-store configuration (TTL of an
entry and the trust penalty applied per recorded violation, §4.3). -/
structure ReputationConfig where
  ttl : Nat
  violationPenalty : ℚ
deriving DecidableEq

/-- Modelled from the spec: the IP Reputation Store (§4.3). -/
structure IPReputationStore where
  entries : List (String × IPReputationEntry)
deriving DecidableEq

/-- Modelled from the spec: `lookup(ip)` (§4.3).  Eviction is lazy:
an entry whose `expiresAt` has passed is treated as absent. -/
def lookupRep (st : IPReputationStore) (ip : String) (now : Nat) :
    Option IPReputationEntry :=
  match st.entries.lookup ip with
  | none => none
  | some e => if now < e.expiresAt then some e else none

/-- Modelled from the spec: `recordViolation(ip)` (§4.3).  Increments the
violation count, lowers the trust score by the configured penalty and
resets `expiresAt`. -/
def recordViolation (cfg : ReputationConfig) (st : IPReputationStore)
    (ip : String) (now : Nat) : IPReputationStore :=
  let e : IPReputationEntry :=
    match lookupRep st ip now with
    | some e =>
        { score := e.score - cfg.violationPenalty
          violationCount := e.violationCount + 1
          lastSeenAt := now
          expiresAt := now + cfg.ttl }
    | none =>
        { score := 0 - cfg.violationPenalty
          violationCount := 1
          lastSeenAt := now
          expiresAt := now + cfg.ttl }
  ⟨(ip, e) :: st.entries.filter (fun p => p.1 != ip)⟩

/-- Suspiciousness contribution (thousandths) of a reputation entry:
each recorded violation adds 200, clamped into [0, 1000]. -/
def repScoreK (e : IPReputationEntry) : Int :=
  clampK (200 * (e.violationCount : Int))

/-! ## Content Heuristics Analyzer (spec §4.4) -/

/-- Modelled from the spec: the financial/pharma/gambling spam lexicon
used by the Content Heuristics Analyzer (§4.4). -/
def spamLexicon : List String :=
  ["viagra", "cialis", "casino", "lottery", "winner", "guaranteed",
   "free money", "click here"]

/-- Modelled from the spec: the destination-domain blocklist (§4.4). -/
def domainBlocklist : List String :=
  ["spam.com", "malware.example", "phishing.example"]

/-- Is any spam-lexicon keyword present in the (lower-cased) message? -/
def keywordHit (msg : String) : Bool :=
  spamLexicon.any (fun k => containsSeq k.toList (lowerChars msg))

/-- Number of URL markers in the (lower-cased) message. -/
def urlCount (msg : String) : Nat :=
  countSeq ("http".toList) (lowerChars msg)

/-- Is any blocklisted destination domain present in the message? -/
def blocklistHit (msg : String) : Bool :=
  domainBlocklist.any (fun d => containsSeq d.toList (lowerChars msg))

/-- Uppercase-ratio signal: at least 10 letters and a majority of them
uppercase (§4.4). -/
def capsSuspicious (msg : String) : Bool :=
  let letters := msg.toList.filter (fun c => c.isAlpha)
  let uppers := letters.filter (fun c => c.isUpper)
  decide (10 ≤ letters.length) && decide (letters.length < 2 * uppers.length)

/-- Length of the longest run of one repeated character. -/
def maxRunAux : List Char → Option Char → Nat → Nat → Nat
  | [], _, cur, best => max cur best
  | c :: cs, some p, cur, best =>
      if c == p then maxRunAux cs (some c) (cur + 1) best
      else maxRunAux cs (some c) 1 (max cur best)
  | c :: cs, none, _, best => maxRunAux cs (some c) 1 best

/-- Repeated/looping-character signal: some character repeated at least
5 times in a row (§4.4). -/
def repeatSuspicious (msg : String) : Bool :=
  decide (5 ≤ maxRunAux (lowerChars msg) none 0 0)

/-- Modelled from the spec: the Content Heuristics score (§4.4), in
thousandths.  A weighted sum of the keyword, link-count (≥ 3 URLs),
domain-blocklist, uppercase-ratio and repeated-character signals,
clamped into [0, 1000].  Deterministic, no I/O, no failure modes. -/
def contentScoreK (msg : String) : Int :=
  let kw : Int := if keywordHit msg then 500 else 0
  let url : Int := if 3 ≤ urlCount msg then 500 else 0
  let blk : Int := if blocklistHit msg then 800 else 0
  let caps : Int := if capsSuspicious msg then 300 else 0
  let rep : Int := if repeatSuspicious msg then 200 else 0
  clampK (kw + url + blk + caps + rep)

/-! ## Behavioral Telemetry Analyzer (spec §4.5) -/

/-- Is the typing rhythm mechanically uniform?  True when there are at
least two keystroke intervals and the variance of the intervals is
below 25 ms²; stated integrally as n·Σx² − (Σx)² < 25·n². -/
def uniformRhythm (l : List Int) : Bool :=
  let n : Int := l.length
  let s1 : Int := l.sum
  let s2 : Int := (l.map (fun x => x * x)).sum
  decide (2 ≤ l.length) && decide (n * s2 - s1 * s1 < 25 * n * n)

/-- Modelled from the spec: the Behavioral Telemetry Analyzer score
(§4.5), in thousandths.  Threshold rules of thumb: interaction delay
below 500 ms; zero mouse movement with non-zero keystroke activity;
near-zero typing-rhythm variance; implausibly high sustained typing
speed; very short time-on-page relative to message length; heavy
copy-paste.  Each tripped rule adds its weight; the sum is clamped. -/
def behavioralScoreK (t : Telemetry) (msgLen : Nat) : Int :=
  let r1 : Int := if t.interactionDelayMs < 500 then 300 else 0
  let r2 : Int := if t.mouseMovements == 0 && decide (0 < t.typingSpeed) then 250 else 0
  let r3 : Int := if uniformRhythm t.typingRhythm then 250 else 0
  let r4 : Int := if 150 < t.typingSpeed then 200 else 0
  let r5 : Int := if t.timeOnPageMs < 100 * msgLen then 150 else 0
  let r6 : Int := if 3 ≤ t.copyPasteEvents then 150 else 0
  clampK (r1 + r2 + r3 + r4 + r5 + r6)

/-! ## ML Classifier (spec §4.6) -/

/-- Modelled from the spec: an immutable versioned ML model snapshot
(§3, §4.6).  Parameters are token weights in thousandths, opaque to the
engine. -/
structure MLModelSnapshot where
  version : Nat
  trainedAt : Nat
  parameters : List (String × Int)
  minTrainingSamples : Nat
  trainingSamples : Nat
deriving DecidableEq

/-- Modelled from the spec: `score(submission)` of the ML Classifier
against a snapshot (§4.6), in thousandths.  Returns none (neutral,
marked untrained) when the snapshot has not met `minTrainingSamples`. -/
def mlScoreOptK (m : MLModelSnapshot) (msg : String) : Option Int :=
  if m.trainingSamples < m.minTrainingSamples then none
  else
    some (clampK (((m.parameters.filter
      (fun p => containsSeq p.1.toList (lowerChars msg))).map
        (fun p => p.2)).sum))

/-! ## Decision Engine (spec §4.7) -/

/-- Modelled from the spec: engine configuration — rate/reputation
configuration, accept/reject thresholds, detector weights (thousandths),
blacklist floor and the fail-open/fail-closed default (§4.2, §4.7).
The defaults below instantiate the spec's configurable values. -/
structure EngineConfig where
  rateCfg : RateLimiterConfig
  repCfg : ReputationConfig
  tAccept : ℚ
  tReject : ℚ
  wContent : Nat
  wBehavioral : Nat
  wReputation : Nat
  wML : Nat
  blacklistThreshold : Nat
  blacklistFloor : ℚ
  failOpen : Bool
deriving DecidableEq

/-- Modelled from the spec: the mutable state shared across submissions —
rate-limit windows, reputation entries, and the current ML snapshot
reference (§2, §5). -/
structure EngineState where
  rate : RateLimiterState
  rep : IPReputationStore
  ml : Option MLModelSnapshot
deriving DecidableEq

/-- Per-detector availability flags: false models a detector timeout or
dependency error on this evaluation (§7 DetectorUnavailable). -/
structure Availability where
  content : Bool
  behavioral : Bool
  reputation : Bool
  ml : Bool
deriving DecidableEq

/-- All detectors available (normal operation). -/
def allAvail : Availability := ⟨true, true, true, true⟩

/-- Content detector contribution: none only when unavailable. -/
def contentOptK (av : Availability) (s : Submission) : Option Int :=
  if av.content then some (contentScoreK s.message) else none

/-- Behavioral detector contribution: none when unavailable or when the
submission carries no telemetry (missing telemetry is neutral, §4.5). -/
def behavOptK (av : Availability) (s : Submission) : Option Int :=
  if av.behavioral then
    s.behavioralTelemetry.map (fun t => behavioralScoreK t s.message.length)
  else none

/-- Reputation lookup used by the engine: none when the store is
unavailable or the IP is unknown/expired (neutral, §4.3). -/
def repLookupOpt (av : Availability) (st : EngineState) (s : Submission)
    (now : Nat) : Option IPReputationEntry :=
  if av.reputation then lookupRep st.rep s.sourceIP now else none

/-- Reputation detector contribution. -/
def repOptK (av : Availability) (st : EngineState) (s : Submission)
    (now : Nat) : Option Int :=
  (repLookupOpt av st s now).map repScoreK

/-- ML detector contribution: none when unavailable (timeout), when no
snapshot is active, or when the snapshot is untrained (§4.6). -/
def mlOptK (av : Availability) (st : EngineState) (s : Submission) : Option Int :=
  if av.ml then st.ml.bind (fun m => mlScoreOptK m s.message) else none

/-- Modelled from the spec: score combination (§4.7 step 3) — the
weighted average of the AVAILABLE detector scores; unavailable/neutral
detectors are excluded from the denominator.  Returns none exactly when
no weighted detector is available. -/
def combineScoresK (pairs : List (Nat × Option Int)) : Option ℚ :=
  let avail := pairs.filterMap (fun p => p.2.map (fun s => (p.1, s)))
  let den := (avail.map (fun p => p.1)).sum
  if den = 0 then none
  else some (mkRat ((avail.map (fun p => (p.1 : Int) * p.2)).sum) (1000 * den))

/-- The weight/score pairs fed to the combination step. -/
def softPairs (cfg : EngineConfig) (av : Availability) (st : EngineState)
    (s : Submission) (now : Nat) : List (Nat × Option Int) :=
  [(cfg.wContent, contentOptK av s),
   (cfg.wBehavioral, behavOptK av s),
   (cfg.wReputation, repOptK av st s now),
   (cfg.wML, mlOptK av st s)]

/-- Evidence entry of a soft detector: its signal, or an explicit
neutral "unavailable" record (§7b: recovered locally, logged). -/
def orUnavailable (dname : String) (r : Option SignalResult) : SignalResult :=
  r.getD { detectorName := dname, score := 0, triggeredHardRule := false
           reason := "unavailable" }

/-- The signal a soft detector contributes to the evidence trail. -/
def mkSignal (dname : String) (k : Int) : SignalResult :=
  { detectorName := dname, score := scoreOfK k, triggeredHardRule := false
    reason := dname }

/-- The rate limiter's evidence entry. -/
def rateLimitSignal (allowed : Bool) : SignalResult :=
  if allowed then
    { detectorName := "rate_limiter", score := 0, triggeredHardRule := false
      reason := "within rate limit" }
  else
    { detectorName := "rate_limiter", score := 1, triggeredHardRule := true
      reason := "rate limit exceeded" }

/-- Full evidence trail of a decision that passed the hard gates. -/
def allSignals (av : Availability) (st : EngineState) (s : Submission)
    (now : Nat) (hp : SignalResult) : List SignalResult :=
  [hp, rateLimitSignal true,
   orUnavailable "content_heuristics" ((contentOptK av s).map (mkSignal "content_heuristics")),
   orUnavailable "behavioral" ((behavOptK av s).map (mkSignal "behavioral")),
   orUnavailable "ip_reputation" ((repOptK av st s now).map (mkSignal "ip_reputation")),
   orUnavailable "ml_classifier" ((mlOptK av st s).map (mkSignal "ml_classifier"))]

/-- Is the source IP previously blacklisted (violation count at or above
the configured threshold)? -/
def isBlacklisted (cfg : EngineConfig) (e : Option IPReputationEntry) : Bool :=
  match e with
  | none => false
  | some e => decide (cfg.blacklistThreshold ≤ e.violationCount)

/-- Modelled from the spec: threshold mapping of §4.7 step 4 —
`combinedScore < T_accept` gives Accept, below `T_reject` gives
Quarantine, otherwise Reject. -/
def thresholdOutcome (cfg : EngineConfig) (q : ℚ) : Outcome :=
  if q < cfg.tAccept then Outcome.Accept
  else if q < cfg.tReject then Outcome.Quarantine
  else Outcome.Reject

/-- Modelled from the spec: the score-based part of the decision (§4.7
steps 3–4): combined weighted average with the blacklist floor, or the
configurable fail-open/fail-closed default when ALL detectors are
unavailable (§7). -/
def softDecision (cfg : EngineConfig) (combined : Option ℚ)
    (repE : Option IPReputationEntry) : Outcome × ℚ :=
  match combined with
  | none => (if cfg.failOpen then Outcome.Accept else Outcome.Reject, 0)
  | some q =>
      let q2 := if isBlacklisted cfg repE then max q cfg.blacklistFloor else q
      (thresholdOutcome cfg q2, q2)

/-- Modelled from the spec: the Decision Engine state machine (§4.7).
Hard gates (honeypot, then rate limiter) are evaluated first and
short-circuit to Reject; otherwise the soft detectors contribute their
weighted scores.  Returns outcome, combined score, evidence trail and
the updated rate-limiter state. -/
def decideCore (cfg : EngineConfig) (av : Availability) (st : EngineState)
    (s : Submission) (now : Nat) : Outcome × ℚ × List SignalResult × RateLimiterState :=
  let hp := honeypotDetector s.honeypotValues
  if hp.triggeredHardRule then
    (Outcome.Reject, 1, [hp], st.rate)
  else
    let res := RateLimiterState.check cfg.rateCfg st.rate s.sourceIP now
    if res.1 then
      let sd := softDecision cfg
        (combineScoresK (softPairs cfg av st s now))
        (repLookupOpt av st s now)
      (sd.1, sd.2, allSignals av st s now hp, res.2)
    else
      (Outcome.Reject, 1, [hp, rateLimitSignal false], res.2)

/-- Modelled from the spec: one full engine evaluation (§4.7).  Produces
the immutable RiskDecision and the updated shared state; every Reject or
Quarantine outcome records a violation against the source IP (§4.7
step 5). -/
def decideSubmission (cfg : EngineConfig) (av : Availability) (st : EngineState)
    (s : Submission) (now : Nat) : RiskDecision × EngineState :=
  let r := decideCore cfg av st s now
  ({ outcome := r.1, combinedScore := r.2.1, signals := r.2.2.1, decidedAt := now },
   { rate := r.2.2.2
     rep := if r.1 = Outcome.Accept then st.rep
            else recordViolation cfg.repCfg st.rep s.sourceIP now
     ml := st.ml })

/-- Modelled from the spec: the configurable defaults (§4.2, §4.7):
threshold 10 requests per 60-unit window, reputation TTL 3600 with unit
trust penalty, T_accept = 0.4, T_reject = 0.6, detector weights
0.6/0.15/0.1/0.15, blacklisting after 5 violations with floor 0.6, and
fail-open on total detector unavailability. -/
def defaultConfig : EngineConfig :=
  { rateCfg := ⟨10, 60⟩
    repCfg := ⟨3600, 1⟩
    tAccept := mkRat 2 5
    tReject := mkRat 3 5
    wContent := 600
    wBehavioral := 150
    wReputation := 100
    wML := 150
    blacklistThreshold := 5
    blacklistFloor := mkRat 3 5
    failOpen := true }

/-- Fresh shared state: no windows, no reputation entries, no snapshot. -/
def initialEngineState : EngineState := ⟨⟨[]⟩, ⟨[]⟩, none⟩

/-! ## Request-handling layer (spec §6, tests of the HTTP surface) -/

/-- Modelled from the spec: an inbound request to POST /api/v1/submit —
an optional access key plus the submission payload (§6 Inbound; the
access-key and field validation behavior is asserted by the repository's
security tests). -/
structure SubmitRequest where
  accessKey : Option String
  submission : Submission
deriving DecidableEq

/-- Modelled from the spec: the HTTP response surface visible to the
submitter — status code, JSON success flag and error message. -/
structure HttpResponse where
  status : Nat
  success : Bool
  error : String
deriving DecidableEq

/-- Modelled from the spec: application state — registered access keys
plus the engine's shared state. -/
structure AppState where
  registeredKeys : List String
  engine : EngineState
deriving DecidableEq

/-- Modelled from the spec: upstream message-length validation — a
message longer than 5000 characters is rejected before the engine runs
(§6 Inbound, §8). -/
def messageLengthOk (msg : String) : Bool :=
  decide (msg.length ≤ 5000)

/-- Modelled from the spec: upstream email-format validation (§6). -/
def validEmailFormat (e : String) : Bool :=
  e.toList.contains '@'

/-- Modelled from the spec: upstream field-level validation (§6 Inbound:
malformed submissions never reach the engine). -/
def validateFields (s : Submission) : Bool :=
  messageLengthOk s.message && validEmailFormat s.email

/-- Modelled from the spec: the submitter-visible response to a decision
(§4.7 step 4, §7): Accept and Quarantine both return plain HTTP success
(anti-enumeration); a hard rate-limit Reject returns 429, any other
Reject returns 403.  No decision ever maps to a server error. -/
def submitResponse (d : RiskDecision) : HttpResponse :=
  match d.outcome with
  | Outcome.Accept => { status := 200, success := true, error := "" }
  | Outcome.Quarantine => { status := 200, success := true, error := "" }
  | Outcome.Reject =>
      if d.signals.any (fun r => r.reason == "rate limit exceeded") then
        { status := 429, success := false, error := "Too many requests" }
      else
        { status := 403, success := false, error := "Submission rejected" }

/-- Modelled from the spec: the request handler for POST /api/v1/submit.
Missing access key gives 400; unregistered key gives 401 with an
"Invalid access key" error; invalid fields give 400; only then is the
Decision Engine invoked (§6; asserted by the security test suites). -/
def handleSubmit (cfg : EngineConfig) (av : Availability) (app : AppState)
    (req : SubmitRequest) (now : Nat) : HttpResponse × AppState :=
  match req.accessKey with
  | none => ({ status := 400, success := false, error := "access_key is required" }, app)
  | some k =>
      if app.registeredKeys.contains k then
        if validateFields req.submission then
          let r := decideSubmission cfg av app.engine req.submission now
          (submitResponse r.1, { app with engine := r.2 })
        else
          ({ status := 400, success := false, error := "validation failed" }, app)
      else
        ({ status := 401, success := false, error := "Invalid access key" }, app)

/-! ## Concrete samples drawn from the repository's test suites -/

/-- A benign submission (test suite: normal submission). -/
def sampleClean : Submission :=
  { formKey := "test-form-spam-protection", sourceIP := "1.2.3.4"
    name := "Test User", email := "test@example.com"
    message := "hello there"
    honeypotValues := [], behavioralTelemetry := none, timestamp := 0 }

/-- A submission with a single spam keyword (test suite: lottery content). -/
def sampleQuarantine : Submission :=
  { sampleClean with message := "win the lottery" }

/-- A submission combining spam keywords with three URLs (spec §8). -/
def sampleSpam : Submission :=
  { sampleClean with
    message := "viagra lottery guaranteed money http://a.co http://b.co http://c.co" }

/-- A submission whose honeypot decoy field was filled (test suite:
`_test_honeypot_filled`). -/
def sampleBot : Submission :=
  { sampleClean with honeypotValues := [("_honeypot", "bot-filled-value")] }

/-- Bot-like telemetry from `_create_bot_behavioral_data`: 0.1 s
interaction delay, no mouse movement, speed 200, uniform rhythm. -/
def botTelemetry : Telemetry :=
  { typingTimeMs := 1000, typingSpeed := 200, mouseMovements := 0
    mouseDistance := 0, scrollEvents := 0, clickEvents := 5
    copyPasteEvents := 0, typingRhythm := [100, 100, 100, 100, 100]
    timeOnPageMs := 5000, interactionDelayMs := 100 }

/-- Human-like telemetry from `_create_human_behavioral_data`: 3.5 s
interaction delay, 25 mouse movements, speed 45, varied rhythm. -/
def humanTelemetry : Telemetry :=
  { typingTimeMs := 15000, typingSpeed := 45, mouseMovements := 25
    mouseDistance := 1200, scrollEvents := 3, clickEvents := 4
    copyPasteEvents := 1, typingRhythm := [120, 95, 140, 110, 85, 130, 105]
    timeOnPageMs := 45000, interactionDelayMs := 3500 }

end FormHub

namespace FormHub

/-! ## Claim theorems -/

/-- Claim C1: any submission with a non-empty honeypot (decoy) field
makes the Honeypot Detector return `triggeredHardRule = true` and
`score = 1.0` and forces the Decision Engine's outcome to Reject,
regardless of every other field and of all engine state; with every
decoy field empty the detector returns score 0.0, not triggered. -/
theorem honeypot_hard_gate (cfg : EngineConfig) (av : Availability)
    (st : EngineState) (s : Submission) (now : Nat) :
    (s.honeypotValues.any (fun p => p.2 != "") = true →
      (honeypotDetector s.honeypotValues).triggeredHardRule = true ∧
      (honeypotDetector s.honeypotValues).score = 1 ∧
      (decideSubmission cfg av st s now).1.outcome = Outcome.Reject) ∧
    (s.honeypotValues.any (fun p => p.2 != "") = false →
      (honeypotDetector s.honeypotValues).triggeredHardRule = false ∧
      (honeypotDetector s.honeypotValues).score = 0) := by
  constructor
  · intro h
    refine ⟨?_, ?_, ?_⟩ <;>
      simp [honeypotDetector, h, decideSubmission, decideCore]
  · intro h
    exact ⟨by simp [honeypotDetector, h], by simp [honeypotDetector, h]⟩

/-- Witness for C1 at the test suite's concrete inputs. -/
theorem honeypot_hard_gate_witness :
    (decideSubmission defaultConfig allAvail initialEngineState sampleBot 0).1.outcome
      = Outcome.Reject ∧
    (honeypotDetector sampleClean.honeypotValues).score = 0 :=
  ⟨((honeypot_hard_gate defaultConfig allAvail initialEngineState sampleBot 0).1
      (by decide)).2.2,
   ((honeypot_hard_gate defaultConfig allAvail initialEngineState sampleClean 0).2
      (by decide)).2⟩

/-- Claim C5: the decision is a deterministic pure function of the
submission and the (model, reputation, rate) state: two evaluations
against equal inputs produce the same combined score and outcome; there
is no hidden randomness. -/
theorem decision_deterministic (cfg : EngineConfig) (av : Availability)
    (st st2 : EngineState) (s s2 : Submission) (now now2 : Nat)
    (hst : st = st2) (hs : s = s2) (hnow : now = now2) :
    (decideSubmission cfg av st s now).1.combinedScore
      = (decideSubmission cfg av st2 s2 now2).1.combinedScore ∧
    (decideSubmission cfg av st s now).1.outcome
      = (decideSubmission cfg av st2 s2 now2).1.outcome := by
  subst hst
  subst hs
  subst hnow
  exact ⟨rfl, rfl⟩

/-- Witness for C5: two evaluations of the same concrete submission. -/
theorem decision_deterministic_witness :
    (decideSubmission defaultConfig allAvail initialEngineState sampleClean 0).1.combinedScore
      = (decideSubmission defaultConfig allAvail initialEngineState sampleClean 0).1.combinedScore ∧
    (decideSubmission defaultConfig allAvail initialEngineState sampleClean 0).1.outcome
      = (decideSubmission defaultConfig allAvail initialEngineState sampleClean 0).1.outcome :=
  decision_deterministic defaultConfig allAvail initialEngineState initialEngineState
    sampleClean sampleClean 0 0 rfl rfl rfl

/-- Claim C8: on the test suite's bot-like telemetry sample (0.1 s
interaction delay, zero mouse movements, uniform typing rhythm) the
Behavioral Telemetry Analyzer produces a strictly higher bot-likeness
score than on the human-like sample (3.5 s delay, 25 mouse movements,
varied rhythm) — monotonic separation, not an absolute threshold.  The
message length 12 is that of the test's "Test message" payload. -/
theorem bot_telemetry_scores_higher :
    scoreOfK (behavioralScoreK humanTelemetry 12)
      < scoreOfK (behavioralScoreK botTelemetry 12) := by decide

/-- Claim C3: a quarantined submission receives exactly the same
success response (HTTP 200, success = true) as an accepted one, so the
submitter cannot distinguish Quarantine from Accept. -/
theorem quarantine_same_response_as_accept
    (cfg cfg2 : EngineConfig) (av av2 : Availability) (st st2 : EngineState)
    (s s2 : Submission) (now now2 : Nat)
    (hq : (decideSubmission cfg av st s now).1.outcome = Outcome.Quarantine)
    (ha : (decideSubmission cfg2 av2 st2 s2 now2).1.outcome = Outcome.Accept) :
    submitResponse (decideSubmission cfg av st s now).1
      = submitResponse (decideSubmission cfg2 av2 st2 s2 now2).1 ∧
    (submitResponse (decideSubmission cfg av st s now).1).status = 200 ∧
    (submitResponse (decideSubmission cfg av st s now).1).success = true := by
  refine ⟨?_, ?_, ?_⟩ <;> simp [submitResponse, hq, ha]

/-- Witness for C3: the keyword-only spam sample is quarantined and the
clean sample accepted; their responses coincide. -/
theorem quarantine_same_response_as_accept_witness :
    submitResponse (decideSubmission defaultConfig allAvail initialEngineState sampleQuarantine 0).1
      = submitResponse (decideSubmission defaultConfig allAvail initialEngineState sampleClean 0).1 ∧
    (submitResponse (decideSubmission defaultConfig allAvail initialEngineState sampleQuarantine 0).1).status = 200 ∧
    (submitResponse (decideSubmission defaultConfig allAvail initialEngineState sampleQuarantine 0).1).success = true :=
  quarantine_same_response_as_accept defaultConfig defaultConfig allAvail allAvail
    initialEngineState initialEngineState sampleQuarantine sampleClean 0 0
    (by decide) (by decide)

/-- The registered access key used by the repository's security tests. -/
def validKey : String :=
  "f6c7a044-4b28-4cfb-8c02-c24c2cece786-c496113b-176d-433c-972d-596f5028d91f"

/-- Application state holding the test suite's registered key. -/
def sampleApp : AppState := ⟨[validKey], initialEngineState⟩

/-- A message of exactly 5000 characters (the accepted boundary). -/
def boundaryMessage : String := String.mk (List.replicate 5000 'A')

/-- A message of 5001 characters (just over the validation limit). -/
def longMessage : String := String.mk (List.replicate 5001 'A')

/-- The boundary message has length exactly 5000. -/
theorem boundaryMessage_length : boundaryMessage.length = 5000 := by
  show (List.replicate 5000 'A').length = 5000
  rw [List.length_replicate]

/-- The long message has length exactly 5001. -/
theorem longMessage_length : longMessage.length = 5001 := by
  show (List.replicate 5001 'A').length = 5001
  rw [List.length_replicate]

/-- Claim C10: a request without an access key gets HTTP 400; one with
an unregistered key gets HTTP 401 with `success = false` and an error
containing "Invalid access key"; and an HTTP 200 response with
`success = true` is only ever produced for a request carrying a
registered access key. -/
theorem access_key_gate (cfg : EngineConfig) (av : Availability)
    (app : AppState) (req : SubmitRequest) (now : Nat) :
    (req.accessKey = none → (handleSubmit cfg av app req now).1.status = 400) ∧
    (∀ k, req.accessKey = some k → app.registeredKeys.contains k = false →
      (handleSubmit cfg av app req now).1.status = 401 ∧
      (handleSubmit cfg av app req now).1.success = false ∧
      containsSeq ("Invalid access key".toList)
        ((handleSubmit cfg av app req now).1.error.toList) = true) ∧
    ((handleSubmit cfg av app req now).1.status = 200 →
      (handleSubmit cfg av app req now).1.success = true →
      ∃ k, req.accessKey = some k ∧ app.registeredKeys.contains k = true) := by
  refine ⟨?_, ?_, ?_⟩
  · intro h
    simp [handleSubmit, h]
  · intro k hk hreg
    have hreg2 : ¬ k ∈ app.registeredKeys := by simpa using hreg
    refine ⟨?_, ?_, ?_⟩ <;> simp [handleSubmit, hk, hreg2]
    decide
  · intro h200 hsucc
    rcases hak : req.accessKey with _ | k
    · simp [handleSubmit, hak] at h200
    · refine ⟨k, rfl, ?_⟩
      by_contra hreg
      rw [Bool.not_eq_true] at hreg
      have hreg2 : ¬ k ∈ app.registeredKeys := by simpa using hreg
      simp [handleSubmit, hak, hreg2] at h200

/-- Witness for C10 at the security tests' concrete requests. -/
theorem access_key_gate_witness :
    (handleSubmit defaultConfig allAvail sampleApp ⟨none, sampleClean⟩ 0).1.status = 400 ∧
    (handleSubmit defaultConfig allAvail sampleApp
      ⟨some "invalid-key-123", sampleClean⟩ 0).1.status = 401 ∧
    ∃ k, (some validKey) = some k ∧ sampleApp.registeredKeys.contains k = true :=
  ⟨(access_key_gate defaultConfig allAvail sampleApp ⟨none, sampleClean⟩ 0).1 rfl,
   ((access_key_gate defaultConfig allAvail sampleApp
       ⟨some "invalid-key-123", sampleClean⟩ 0).2.1 "invalid-key-123" rfl (by decide)).1,
   (access_key_gate defaultConfig allAvail sampleApp
       ⟨some validKey, sampleClean⟩ 0).2.2 (by decide) (by decide)⟩

/-- Claim C9: the upstream validator accepts a message of exactly 5000
characters and rejects any longer one: with a valid access key, a
message over 5000 characters makes the handler answer HTTP 400 and
leave the application state untouched — the Decision Engine is never
invoked. -/
theorem message_length_boundary (cfg : EngineConfig) (av : Availability)
    (app : AppState) (req : SubmitRequest) (now : Nat) :
    (req.submission.message.length = 5000 →
      messageLengthOk req.submission.message = true) ∧
    (req.submission.message.length = 5001 →
      messageLengthOk req.submission.message = false) ∧
    (5000 < req.submission.message.length →
      messageLengthOk req.submission.message = false ∧
      ∀ k, req.accessKey = some k → app.registeredKeys.contains k = true →
        handleSubmit cfg av app req now
          = ({ status := 400, success := false, error := "validation failed" }, app)) := by
  refine ⟨?_, ?_, ?_⟩
  · intro h
    simp [messageLengthOk, h]
  · intro h
    simp [messageLengthOk, h]
  · intro h
    have hm : messageLengthOk req.submission.message = false := by
      simp only [messageLengthOk, decide_eq_false_iff_not]
      omega
    refine ⟨hm, ?_⟩
    intro k hk hreg
    have hreg2 : k ∈ app.registeredKeys := by simpa using hreg
    simp [handleSubmit, hk, hreg2, validateFields, hm]

/-- Witness for C9 at the 5000/5001 boundary messages. -/
theorem message_length_boundary_witness :
    messageLengthOk boundaryMessage = true ∧
    messageLengthOk longMessage = false ∧
    handleSubmit defaultConfig allAvail sampleApp
        ⟨some validKey, { sampleClean with message := longMessage }⟩ 0
      = ({ status := 400, success := false, error := "validation failed" }, sampleApp) :=
  ⟨(message_length_boundary defaultConfig allAvail sampleApp
      ⟨some validKey, { sampleClean with message := boundaryMessage }⟩ 0).1
      boundaryMessage_length,
   (message_length_boundary defaultConfig allAvail sampleApp
      ⟨some validKey, { sampleClean with message := longMessage }⟩ 0).2.1
      longMessage_length,
   ((message_length_boundary defaultConfig allAvail sampleApp
      ⟨some validKey, { sampleClean with message := longMessage }⟩ 0).2.2
      (lt_of_lt_of_eq (by decide) longMessage_length.symm)).2
      validKey rfl (by decide)⟩

/-- No decision ever maps to a server-error response: the submitter
always receives a definitive 2xx/4xx answer (§7). -/
theorem submitResponse_status_lt (d : RiskDecision) : (submitResponse d).status < 500 := by
  rcases d with ⟨o, q, sig, t⟩
  cases o <;> simp [submitResponse]
  split <;> simp

/-- Availability with the ML Classifier timed out and everything else up. -/
def noMLAvail : Availability := ⟨true, true, true, false⟩

/-- A trained ML snapshot used to exercise ML-independence. -/
def sampleSnapshot : MLModelSnapshot :=
  { version := 1, trainedAt := 0, parameters := [("viagra", 900)]
    minTrainingSamples := 10, trainingSamples := 50 }

/-- Identifier of one of the four soft (non-hard-gate) detectors. -/
inductive SoftDetector
  | content
  | behavioral
  | reputation
  | ml
deriving DecidableEq

/-- The availability flag of one soft detector. -/
def detectorFlag (av : Availability) : SoftDetector → Bool
  | SoftDetector.content => av.content
  | SoftDetector.behavioral => av.behavioral
  | SoftDetector.reputation => av.reputation
  | SoftDetector.ml => av.ml

/-- The evidence-trail name of one soft detector. -/
def softDetectorName : SoftDetector → String
  | SoftDetector.content => "content_heuristics"
  | SoftDetector.behavioral => "behavioral"
  | SoftDetector.reputation => "ip_reputation"
  | SoftDetector.ml => "ml_classifier"

/-- The weight/score pairs of the combination step with one detector's
pair deleted (its weight removed from the denominator as well). -/
def softPairsWithout (cfg : EngineConfig) (av : Availability) (st : EngineState)
    (s : Submission) (now : Nat) : SoftDetector → List (Nat × Option Int)
  | SoftDetector.content =>
      [(cfg.wBehavioral, behavOptK av s),
       (cfg.wReputation, repOptK av st s now), (cfg.wML, mlOptK av st s)]
  | SoftDetector.behavioral =>
      [(cfg.wContent, contentOptK av s),
       (cfg.wReputation, repOptK av st s now), (cfg.wML, mlOptK av st s)]
  | SoftDetector.reputation =>
      [(cfg.wContent, contentOptK av s), (cfg.wBehavioral, behavOptK av s),
       (cfg.wML, mlOptK av st s)]
  | SoftDetector.ml =>
      [(cfg.wContent, contentOptK av s), (cfg.wBehavioral, behavOptK av s),
       (cfg.wReputation, repOptK av st s now)]

/-- A pair whose score is absent contributes nothing to the weighted
average: it is dropped from both the numerator and the denominator. -/
theorem combineScoresK_append_none (w : Nat) (l1 l2 : List (Nat × Option Int)) :
    combineScoresK (l1 ++ (w, none) :: l2) = combineScoresK (l1 ++ l2) := by
  have h : ∀ l : List (Nat × Option Int),
      (l ++ (w, none) :: l2).filterMap (fun p => p.2.map (fun s => (p.1, s)))
        = (l ++ l2).filterMap (fun p => p.2.map (fun s => (p.1, s))) := by
    intro l
    induction l with
    | nil => simp
    | cons a t ih => simp [List.filterMap_cons, ih]
  simp [combineScoresK, h l1]

/-- Claim C4: for EVERY soft detector that times out or errors
(availability flag false) while the hard gates pass, the decision still
completes (the engine is a total function): the evidence trail records
an explicit neutral "unavailable" signal under that detector's name,
the failed detector is excluded from the weighted average (numerator
and denominator alike, not counted as zero), an ML Classifier that
never returns leaves the decision independent of the ML snapshot, and
the caller receives a definitive non-error response; only when ALL soft
detectors are unavailable does the engine fall back to the configurable
fail-open/fail-closed default. -/
theorem detector_unavailable_neutral (cfg : EngineConfig) (av : Availability)
    (rate : RateLimiterState) (rep : IPReputationStore)
    (m1 m2 : Option MLModelSnapshot) (s : Submission) (now : Nat)
    (d : SoftDetector) (hd : detectorFlag av d = false)
    (hhp : s.honeypotValues.any (fun p => p.2 != "") = false)
    (hrate : (RateLimiterState.check cfg.rateCfg rate s.sourceIP now).1 = true) :
    ({ detectorName := softDetectorName d, score := 0, triggeredHardRule := false
       reason := "unavailable" } : SignalResult)
      ∈ (decideSubmission cfg av ⟨rate, rep, m1⟩ s now).1.signals ∧
    combineScoresK (softPairs cfg av ⟨rate, rep, m1⟩ s now)
      = combineScoresK (softPairsWithout cfg av ⟨rate, rep, m1⟩ s now d) ∧
    (av.ml = false →
      (decideSubmission cfg av ⟨rate, rep, m1⟩ s now).1
        = (decideSubmission cfg av ⟨rate, rep, m2⟩ s now).1) ∧
    (submitResponse (decideSubmission cfg av ⟨rate, rep, m1⟩ s now).1).status < 500 ∧
    (av.content = false → av.behavioral = false → av.reputation = false →
      av.ml = false →
      (decideSubmission cfg av ⟨rate, rep, m1⟩ s now).1.outcome
        = (if cfg.failOpen then Outcome.Accept else Outcome.Reject)) := by
  refine ⟨?_, ?_, ?_, submitResponse_status_lt _, ?_⟩
  · cases d <;> simp only [detectorFlag] at hd <;>
      simp [decideSubmission, decideCore, honeypotDetector, hhp, hrate,
        allSignals, orUnavailable, softDetectorName,
        contentOptK, behavOptK, repOptK, repLookupOpt, mlOptK, hd]
  · cases d with
    | content =>
        simp only [detectorFlag] at hd
        have hnone : contentOptK av s = none := by simp [contentOptK, hd]
        simp only [softPairs, softPairsWithout, hnone]
        exact combineScoresK_append_none cfg.wContent [] _
    | behavioral =>
        simp only [detectorFlag] at hd
        have hnone : behavOptK av s = none := by simp [behavOptK, hd]
        simp only [softPairs, softPairsWithout, hnone]
        exact combineScoresK_append_none cfg.wBehavioral
          [(cfg.wContent, contentOptK av s)] _
    | reputation =>
        simp only [detectorFlag] at hd
        have hnone : repOptK av ⟨rate, rep, m1⟩ s now = none := by
          simp [repOptK, repLookupOpt, hd]
        simp only [softPairs, softPairsWithout, hnone]
        exact combineScoresK_append_none cfg.wReputation
          [(cfg.wContent, contentOptK av s), (cfg.wBehavioral, behavOptK av s)] _
    | ml =>
        simp only [detectorFlag] at hd
        have hnone : mlOptK av ⟨rate, rep, m1⟩ s = none := by simp [mlOptK, hd]
        simp only [softPairs, softPairsWithout, hnone]
        exact combineScoresK_append_none cfg.wML
          [(cfg.wContent, contentOptK av s), (cfg.wBehavioral, behavOptK av s),
           (cfg.wReputation, repOptK av ⟨rate, rep, m1⟩ s now)] _
  · intro hml
    simp [decideSubmission, decideCore, honeypotDetector, hhp, hrate,
      allSignals, orUnavailable, mlOptK, hml, softPairs, contentOptK, behavOptK,
      repOptK, repLookupOpt]
  · intro hc hb hr hml
    simp [decideSubmission, decideCore, honeypotDetector, hhp, hrate,
      softDecision, combineScoresK, softPairs, contentOptK, behavOptK,
      repOptK, repLookupOpt, mlOptK, hml, hc, hb, hr]

/-- Witness for C4: a content-detector failure and an ML-classifier
failure, each leaving its neutral "unavailable" marker in the evidence;
the ML failure also leaves the decision independent of the snapshot. -/
theorem detector_unavailable_neutral_witness :
    ({ detectorName := "content_heuristics", score := 0, triggeredHardRule := false
       reason := "unavailable" } : SignalResult)
      ∈ (decideSubmission defaultConfig ⟨false, true, true, true⟩
          ⟨⟨[]⟩, ⟨[]⟩, none⟩ sampleClean 0).1.signals ∧
    ({ detectorName := "ml_classifier", score := 0, triggeredHardRule := false
       reason := "unavailable" } : SignalResult)
      ∈ (decideSubmission defaultConfig noMLAvail ⟨⟨[]⟩, ⟨[]⟩, none⟩ sampleClean 0).1.signals ∧
    (decideSubmission defaultConfig noMLAvail ⟨⟨[]⟩, ⟨[]⟩, none⟩ sampleClean 0).1
      = (decideSubmission defaultConfig noMLAvail
          ⟨⟨[]⟩, ⟨[]⟩, some sampleSnapshot⟩ sampleClean 0).1 :=
  ⟨(detector_unavailable_neutral defaultConfig ⟨false, true, true, true⟩ ⟨[]⟩ ⟨[]⟩
      none none sampleClean 0 SoftDetector.content rfl (by decide) (by decide)).1,
   (detector_unavailable_neutral defaultConfig noMLAvail ⟨[]⟩ ⟨[]⟩
      none (some sampleSnapshot) sampleClean 0 SoftDetector.ml rfl
      (by decide) (by decide)).1,
   (detector_unavailable_neutral defaultConfig noMLAvail ⟨[]⟩ ⟨[]⟩
      none (some sampleSnapshot) sampleClean 0 SoftDetector.ml rfl
      (by decide) (by decide)).2.2.1 rfl⟩

/-- The reputation store after k calls of `recordViolation` for `ip`,
starting from an empty store. -/
def repAfter (cfg : ReputationConfig) (ip : String) (now : Nat) : Nat → IPReputationStore
  | 0 => ⟨[]⟩
  | k + 1 => recordViolation cfg (repAfter cfg ip now k) ip now

/-- Looking up an IP right after recording a violation finds the freshly
updated entry (the TTL is strictly positive, so it has not expired). -/
theorem lookupRep_recordViolation (cfg : ReputationConfig) (st : IPReputationStore)
    (ip : String) (now : Nat) (httl : 0 < cfg.ttl) :
    lookupRep (recordViolation cfg st ip now) ip now =
      some (match lookupRep st ip now with
            | some e => { score := e.score - cfg.violationPenalty
                          violationCount := e.violationCount + 1
                          lastSeenAt := now, expiresAt := now + cfg.ttl }
            | none => { score := 0 - cfg.violationPenalty, violationCount := 1
                        lastSeenAt := now, expiresAt := now + cfg.ttl }) := by
  rcases h : lookupRep st ip now with _ | e <;>
    simp only [recordViolation, h] <;>
    simp [lookupRep, List.lookup, (by omega : now < now + cfg.ttl)]

/-- After k + 1 recorded violations the lookup shows violation count
k + 1. -/
theorem repAfter_lookup (cfg : ReputationConfig) (ip : String) (now : Nat)
    (httl : 0 < cfg.ttl) :
    ∀ k, ∃ e : IPReputationEntry,
      lookupRep (repAfter cfg ip now (k + 1)) ip now = some e ∧
      e.violationCount = k + 1 := by
  intro k
  induction k with
  | zero =>
      refine ⟨{ score := 0 - cfg.violationPenalty, violationCount := 1
                lastSeenAt := now, expiresAt := now + cfg.ttl }, ?_, rfl⟩
      show lookupRep (recordViolation cfg (repAfter cfg ip now 0) ip now) ip now = _
      rw [lookupRep_recordViolation cfg _ ip now httl]
      simp [repAfter, lookupRep, List.lookup]
  | succ n ih =>
      obtain ⟨e, hl, hc⟩ := ih
      refine ⟨{ score := e.score - cfg.violationPenalty
                violationCount := e.violationCount + 1
                lastSeenAt := now, expiresAt := now + cfg.ttl }, ?_, by simp [hc]⟩
      show lookupRep (recordViolation cfg (repAfter cfg ip now (n + 1)) ip now) ip now = _
      rw [lookupRep_recordViolation cfg _ ip now httl, hl]

/-- Claim C6: after `recordViolation(ip)` has been called k ≥ 1 times,
`lookup(ip)` returns an entry with `violationCount = k`, and one more
violation yields count k + 1 with a reputation (trust) score that is
non-increasing; moreover every Reject or Quarantine outcome of the
Decision Engine invokes `recordViolation` on the source IP. -/
theorem reputation_feedback (cfg : ReputationConfig) (ip : String) (now : Nat)
    (k : Nat) (httl : 0 < cfg.ttl) (hpen : 0 ≤ cfg.violationPenalty) (hk : 1 ≤ k) :
    (∃ e e2 : IPReputationEntry,
      lookupRep (repAfter cfg ip now k) ip now = some e ∧
      lookupRep (repAfter cfg ip now (k + 1)) ip now = some e2 ∧
      e.violationCount = k ∧ e2.violationCount = k + 1 ∧ e2.score ≤ e.score) ∧
    (∀ (ecfg : EngineConfig) (av : Availability) (st : EngineState)
        (s : Submission) (now2 : Nat),
      (decideSubmission ecfg av st s now2).1.outcome = Outcome.Reject ∨
        (decideSubmission ecfg av st s now2).1.outcome = Outcome.Quarantine →
      (decideSubmission ecfg av st s now2).2.rep
        = recordViolation ecfg.repCfg st.rep s.sourceIP now2) := by
  constructor
  · obtain ⟨j, rfl⟩ : ∃ j, k = j + 1 := ⟨k - 1, by omega⟩
    obtain ⟨e, hl, hc⟩ := repAfter_lookup cfg ip now httl j
    refine ⟨e, { score := e.score - cfg.violationPenalty
                 violationCount := e.violationCount + 1
                 lastSeenAt := now, expiresAt := now + cfg.ttl },
            hl, ?_, hc, by simp [hc], sub_le_self _ hpen⟩
    show lookupRep (recordViolation cfg (repAfter cfg ip now (j + 1)) ip now) ip now = _
    rw [lookupRep_recordViolation cfg _ ip now httl, hl]
  · intro ecfg av st s now2 h
    have h1 : ¬ (decideCore ecfg av st s now2).1 = Outcome.Accept := by
      intro hc
      have h2 : (decideSubmission ecfg av st s now2).1.outcome = Outcome.Accept := hc
      rcases h with h | h <;> rw [h2] at h <;> simp at h
    simp [decideSubmission, h1]

/-- Witness for C6 with two recorded violations at the default
reputation configuration. -/
theorem reputation_feedback_witness :
    (∃ e e2 : IPReputationEntry,
      lookupRep (repAfter ⟨3600, 1⟩ "9.9.9.9" 0 2) "9.9.9.9" 0 = some e ∧
      lookupRep (repAfter ⟨3600, 1⟩ "9.9.9.9" 0 3) "9.9.9.9" 0 = some e2 ∧
      e.violationCount = 2 ∧ e2.violationCount = 3 ∧ e2.score ≤ e.score) ∧
    (∀ (ecfg : EngineConfig) (av : Availability) (st : EngineState)
        (s : Submission) (now2 : Nat),
      (decideSubmission ecfg av st s now2).1.outcome = Outcome.Reject ∨
        (decideSubmission ecfg av st s now2).1.outcome = Outcome.Quarantine →
      (decideSubmission ecfg av st s now2).2.rep
        = recordViolation ecfg.repCfg st.rep s.sourceIP now2) :=
  reputation_feedback ⟨3600, 1⟩ "9.9.9.9" 0 2 (by decide) (by decide) (by decide)

/-- The rate-limiter state after i checks for the same key at time
`now`, starting from the empty state. -/
def stateAfter (cfg : RateLimiterConfig) (key : String) (now : Nat) :
    Nat → RateLimiterState
  | 0 => ⟨[]⟩
  | k + 1 => ((stateAfter cfg key now k).check cfg key now).2

/-- Whether request number i + 1 (0-indexed i) of a same-key burst is
allowed by the rate limiter. -/
def allowedAt (cfg : RateLimiterConfig) (key : String) (now : Nat) (i : Nat) : Bool :=
  ((stateAfter cfg key now i).check cfg key now).1

/-- Within one window, the state after k + 1 same-key checks holds a
single window with count k + 1. -/
theorem stateAfter_succ (cfg : RateLimiterConfig) (key : String) (now : Nat)
    (hdur : 0 < cfg.windowDuration) :
    ∀ k, stateAfter cfg key now (k + 1) = ⟨[(key, ⟨k + 1, now⟩)]⟩ := by
  intro k
  induction k with
  | zero =>
      show ((stateAfter cfg key now 0).check cfg key now).2 = _
      simp [stateAfter, RateLimiterState.check, List.lookup]
  | succ n ih =>
      show ((stateAfter cfg key now (n + 1)).check cfg key now).2 = _
      rw [ih]
      simp only [RateLimiterState.check, List.lookup, beq_self_eq_true]
      rw [if_neg (by omega)]
      simp

/-- Request number i + 1 of a same-key burst is allowed exactly when
i + 1 is within the threshold. -/
theorem allowedAt_eq (cfg : RateLimiterConfig) (key : String) (now : Nat)
    (hdur : 0 < cfg.windowDuration) :
    ∀ i, allowedAt cfg key now i = decide (i + 1 ≤ cfg.threshold) := by
  intro i
  cases i with
  | zero =>
      simp [allowedAt, stateAfter, RateLimiterState.check, List.lookup]
  | succ n =>
      rw [allowedAt, stateAfter_succ cfg key now hdur n]
      simp only [RateLimiterState.check, List.lookup, beq_self_eq_true]
      rw [if_neg (by omega)]

/-- Claim C2: in a same-key burst within one window, every request up to
and including the configured threshold N is allowed, every request after
the Nth is denied, and a denied rate check is a hard-gate terminal
decision: the engine rejects with the "rate limit exceeded" hard-rule
signal regardless of every other detector score. -/
theorem rate_limit_threshold (rcfg : RateLimiterConfig) (key : String) (now : Nat)
    (hdur : 0 < rcfg.windowDuration) :
    (∀ i, i < rcfg.threshold → allowedAt rcfg key now i = true) ∧
    (∀ i, rcfg.threshold ≤ i → allowedAt rcfg key now i = false) ∧
    (∀ (cfg : EngineConfig) (av : Availability) (st : EngineState)
        (s : Submission) (now2 : Nat),
      s.honeypotValues.any (fun p => p.2 != "") = false →
      (RateLimiterState.check cfg.rateCfg st.rate s.sourceIP now2).1 = false →
      (decideSubmission cfg av st s now2).1.outcome = Outcome.Reject ∧
      rateLimitSignal false ∈ (decideSubmission cfg av st s now2).1.signals ∧
      (rateLimitSignal false).reason = "rate limit exceeded" ∧
      (rateLimitSignal false).triggeredHardRule = true) := by
  refine ⟨?_, ?_, ?_⟩
  · intro i hi
    rw [allowedAt_eq rcfg key now hdur i]
    simp only [decide_eq_true_eq]
    omega
  · intro i hi
    rw [allowedAt_eq rcfg key now hdur i]
    simp only [decide_eq_false_iff_not]
    omega
  · intro cfg av st s now2 hhp hrl
    refine ⟨?_, ?_, rfl, rfl⟩ <;>
      simp [decideSubmission, decideCore, honeypotDetector, hhp, hrl]

/-- An engine state whose rate window for the test IP is already at the
default threshold of 10. -/
def exhaustedState : EngineState := ⟨⟨[("1.2.3.4", ⟨10, 0⟩)]⟩, ⟨[]⟩, none⟩

/-- Witness for C2: with threshold 10, request 4 of a burst is allowed,
request 11 is denied, and the engine turns a denied check into a
hard-gate Reject. -/
theorem rate_limit_threshold_witness :
    allowedAt ⟨10, 60⟩ "1.2.3.4" 5 3 = true ∧
    allowedAt ⟨10, 60⟩ "1.2.3.4" 5 10 = false ∧
    ((decideSubmission defaultConfig allAvail exhaustedState sampleClean 5).1.outcome
        = Outcome.Reject ∧
      rateLimitSignal false
        ∈ (decideSubmission defaultConfig allAvail exhaustedState sampleClean 5).1.signals ∧
      (rateLimitSignal false).reason = "rate limit exceeded" ∧
      (rateLimitSignal false).triggeredHardRule = true) :=
  ⟨(rate_limit_threshold ⟨10, 60⟩ "1.2.3.4" 5 (by decide)).1 3 (by decide),
   (rate_limit_threshold ⟨10, 60⟩ "1.2.3.4" 5 (by decide)).2.1 10 (by decide),
   (rate_limit_threshold ⟨10, 60⟩ "1.2.3.4" 5 (by decide)).2.2 defaultConfig allAvail
     exhaustedState sampleClean 5 (by decide) (by decide)⟩

/-- A clamped thousandths-score is non-negative. -/
theorem clampK_nonneg (k : Int) : 0 ≤ clampK k :=
  le_min (by norm_num) (le_max_left 0 k)

/-- A clamped thousandths-score is at most 1000. -/
theorem clampK_le_1000 (k : Int) : clampK k ≤ 1000 :=
  min_le_left _ _

/-- Clamping saturates at 1000. -/
theorem clampK_eq_1000 {k : Int} (h : 1000 ≤ k) : clampK k = 1000 := by
  unfold clampK
  rw [max_eq_right (le_trans (by norm_num) h), min_eq_left h]

/-- A lower bound below the cap survives clamping. -/
theorem le_clampK {c k : Int} (h1 : c ≤ k) (h2 : c ≤ 1000) : c ≤ clampK k :=
  le_min h2 (le_trans h1 (le_max_right 0 k))

/-- Comparison of built rationals by cross multiplication. -/
theorem mkRat_le_mkRat (a b : Int) (c d : Nat) (hc : 0 < c) (hd : 0 < d)
    (h : a * (d : Int) ≤ b * (c : Int)) : mkRat a c ≤ mkRat b d := by
  rw [Rat.mkRat_eq_div, Rat.mkRat_eq_div,
    div_le_div_iff₀ (by exact_mod_cast hc) (by exact_mod_cast hd)]
  exact_mod_cast h

/-- A non-negative thousandths-score denotes a non-negative rational. -/
theorem scoreOfK_nonneg {k : Int} (h : 0 ≤ k) : (0 : ℚ) ≤ scoreOfK k := by
  unfold scoreOfK
  rw [Rat.mkRat_eq_div]
  exact div_nonneg (by exact_mod_cast h) (by norm_num)

/-- A thousandths-score at most 1000 denotes a rational at most 1. -/
theorem scoreOfK_le_one {k : Int} (h : k ≤ 1000) : scoreOfK k ≤ 1 := by
  unfold scoreOfK
  rw [Rat.mkRat_eq_div, div_le_one (by norm_num)]
  exact_mod_cast h

/-- Keywords plus three URLs saturate the content heuristics score. -/
theorem contentScoreK_eq_1000 {msg : String} (hkw : keywordHit msg = true)
    (hurl : 3 ≤ urlCount msg) : contentScoreK msg = 1000 := by
  simp only [contentScoreK]
  rw [if_pos hkw, if_pos hurl]
  apply clampK_eq_1000
  split_ifs <;> omega

/-- With the default weights, a saturated content score forces the
weighted average of the available detector scores to at least 3/5, no
matter which of the other detectors are available and what (non-negative)
scores they report. -/
theorem combine_content_ge (b r m : Option Int)
    (hb : ∀ x, b = some x → (0 : Int) ≤ x)
    (hr : ∀ x, r = some x → (0 : Int) ≤ x)
    (hm : ∀ x, m = some x → (0 : Int) ≤ x) :
    ∃ q, combineScoresK [(600, some 1000), (150, b), (100, r), (150, m)] = some q ∧
      mkRat 3 5 ≤ q := by
  rcases b with _ | bv <;> rcases r with _ | rv <;> rcases m with _ | mv
  all_goals (try have hbv : (0 : Int) ≤ bv := hb bv rfl)
  all_goals (try have hrv : (0 : Int) ≤ rv := hr rv rfl)
  all_goals (try have hmv : (0 : Int) ≤ mv := hm mv rfl)
  all_goals refine ⟨_, rfl, ?_⟩
  all_goals simp only [List.filterMap_cons, List.filterMap_nil, Option.map_some,
    Option.map_some', Option.map_none', List.map_cons, List.map_nil,
    List.sum_cons, List.sum_nil]
  all_goals apply mkRat_le_mkRat 3 _ 5 _ (by norm_num) (by norm_num)
  all_goals push_cast
  all_goals omega

/-- Claim C7: any submission whose message combines known spam keywords
with at least three URLs drives the combined score to at least T_reject,
so the Decision Engine rejects it (under the default configuration with
all detectors up, whatever the shared state); moreover the Content
Heuristics score is a weighted sum clamped into [0,1] in which the
single strong blocklisted-domain signal alone reaches the quarantine
threshold. -/
theorem spam_content_rejected :
    (∀ (st : EngineState) (s : Submission) (now : Nat),
      keywordHit s.message = true → 3 ≤ urlCount s.message →
      defaultConfig.tReject
          ≤ (decideSubmission defaultConfig allAvail st s now).1.combinedScore ∧
      (decideSubmission defaultConfig allAvail st s now).1.outcome = Outcome.Reject) ∧
    (∀ msg, (0 : ℚ) ≤ scoreOfK (contentScoreK msg) ∧ scoreOfK (contentScoreK msg) ≤ 1) ∧
    (∀ msg, blocklistHit msg = true →
      defaultConfig.tAccept ≤ scoreOfK (contentScoreK msg)) := by
  have hAT : defaultConfig.tAccept < defaultConfig.tReject := by decide
  have htr1 : defaultConfig.tReject ≤ (1 : ℚ) := by decide
  refine ⟨?_, ?_, ?_⟩
  · intro st s now hkw hurl
    by_cases hhp : s.honeypotValues.any (fun p => p.2 != "") = true
    · constructor
      · simpa [decideSubmission, decideCore, honeypotDetector, hhp] using htr1
      · simp [decideSubmission, decideCore, honeypotDetector, hhp]
    · have hhp2 : s.honeypotValues.any (fun p => p.2 != "") = false :=
        eq_false_of_ne_true hhp
      cases hrl : (RateLimiterState.check defaultConfig.rateCfg st.rate s.sourceIP now).1 with
      | false =>
          constructor
          · simpa [decideSubmission, decideCore, honeypotDetector, hhp2, hrl] using htr1
          · simp [decideSubmission, decideCore, honeypotDetector, hhp2, hrl]
      | true =>
          have hcontent : contentScoreK s.message = 1000 := contentScoreK_eq_1000 hkw hurl
          have hpairs : softPairs defaultConfig allAvail st s now
              = [(600, some 1000), (150, behavOptK allAvail s),
                 (100, repOptK allAvail st s now), (150, mlOptK allAvail st s)] := by
            simp [softPairs, contentOptK, allAvail, defaultConfig, hcontent]
          have hbB : ∀ x, behavOptK allAvail s = some x → (0 : Int) ≤ x := by
            intro x hx
            simp only [behavOptK, allAvail, if_true] at hx
            obtain ⟨t, ht, hfx⟩ := Option.map_eq_some'.mp hx
            rw [← hfx]
            exact clampK_nonneg _
          have hrB : ∀ x, repOptK allAvail st s now = some x → (0 : Int) ≤ x := by
            intro x hx
            obtain ⟨e, he, hfx⟩ := Option.map_eq_some'.mp hx
            rw [← hfx]
            exact clampK_nonneg _
          have hmB : ∀ x, mlOptK allAvail st s = some x → (0 : Int) ≤ x := by
            intro x hx
            simp only [mlOptK, allAvail, if_true] at hx
            obtain ⟨msnap, hms, hx2⟩ := Option.bind_eq_some.mp hx
            simp only [mlScoreOptK] at hx2
            split at hx2
            · exact absurd hx2 (by simp)
            · rw [← Option.some_inj.mp hx2]
              exact clampK_nonneg _
          obtain ⟨q, hq, hge⟩ :=
            combine_content_ge (behavOptK allAvail s) (repOptK allAvail st s now)
              (mlOptK allAvail st s) hbB hrB hmB
          have hcomb : combineScoresK (softPairs defaultConfig allAvail st s now) = some q := by
            rw [hpairs]
            exact hq
          have hbranch :
              (decideSubmission defaultConfig allAvail st s now).1.combinedScore
                = (softDecision defaultConfig
                    (combineScoresK (softPairs defaultConfig allAvail st s now))
                    (repLookupOpt allAvail st s now)).2 ∧
              (decideSubmission defaultConfig allAvail st s now).1.outcome
                = (softDecision defaultConfig
                    (combineScoresK (softPairs defaultConfig allAvail st s now))
                    (repLookupOpt allAvail st s now)).1 := by
            constructor <;> simp [decideSubmission, decideCore, honeypotDetector, hhp2, hrl]
          have hq2 : defaultConfig.tReject
              ≤ (if isBlacklisted defaultConfig (repLookupOpt allAvail st s now)
                 then max q defaultConfig.blacklistFloor else q) := by
            split
            · exact le_trans hge (le_max_left _ _)
            · exact hge
          constructor
          · rw [hbranch.1, hcomb]
            simpa [softDecision] using hq2
          · rw [hbranch.2, hcomb]
            simp only [softDecision]
            have h1 : ¬ ((if isBlacklisted defaultConfig (repLookupOpt allAvail st s now)
                then max q defaultConfig.blacklistFloor else q) < defaultConfig.tAccept) :=
              not_lt.mpr (le_trans (le_of_lt hAT) hq2)
            have h2 : ¬ ((if isBlacklisted defaultConfig (repLookupOpt allAvail st s now)
                then max q defaultConfig.blacklistFloor else q) < defaultConfig.tReject) :=
              not_lt.mpr hq2
            simp [thresholdOutcome, h1, h2]
  · intro msg
    constructor
    · exact scoreOfK_nonneg (clampK_nonneg _)
    · exact scoreOfK_le_one (clampK_le_1000 _)
  · intro msg hblk
    have h4 : (400 : Int) ≤ contentScoreK msg := by
      simp only [contentScoreK]
      rw [if_pos hblk]
      refine le_clampK ?_ (by norm_num)
      split_ifs <;> omega
    exact mkRat_le_mkRat 2 (contentScoreK msg) 5 1000 (by norm_num) (by norm_num) (by omega)

/-- Witness for C7: the keyword-plus-three-URL sample is rejected with
combined score at least T_reject. -/
theorem spam_content_rejected_witness :
    defaultConfig.tReject
        ≤ (decideSubmission defaultConfig allAvail initialEngineState sampleSpam 0).1.combinedScore ∧
    (decideSubmission defaultConfig allAvail initialEngineState sampleSpam 0).1.outcome
        = Outcome.Reject :=
  spam_content_rejected.1 initialEngineState sampleSpam 0 (by decide) (by decide)

end FormHub
